import Mathlib

/-!
A shallow embedding of the RTMP ingestion core of the scuffle repository
(`crates/rtmp`): the chunk data model (`chunk/define.rs`), the message layer
(`messages/define.rs`, `messages/parser.rs`) and the server session state
machine (`session/server_session.rs`).

Modelling conventions:

* Machine integers (`u8`, `u32`, `usize`) are modelled as `Nat`; no modelled
  code path performs wrapping arithmetic, except the Rust saturating cast
  `f64 as u32`, which is modelled explicitly by `f64ToU32`.
* AMF0 numbers (Rust `f64`) are modelled as `ℚ`: every IEEE-754 double other
  than NaN and the infinities is an exact rational, and the modelled code
  performs no floating-point arithmetic, only moves, comparisons and the one
  saturating cast.
* The AMF0 codec (the `scuffle-amf0` crate of this repository) is not among
  the given sources; it is modelled at the granularity its interface and the
  protocol description expose: a payload is either a raw byte list or a
  self-describing sequence of typed AMF0 values, and `decodeWithType` checks
  the requested marker against the head value.
* The byte-serialising writer helpers (`ProtocolControlMessagesWriter`,
  `EventMessagesWriter`, `NetStreamWriter`, `NetConnection`) are modelled at
  message granularity: each writer call made by `server_session.rs` appends
  one `OutMsg` to the session's write buffer, in the order of the calls.
* The two asynchronous collaborators of a session (the media data producer
  and the publish admission requester) are modelled by explicit outcome
  parameters.  An await wrapped in `FutureExt::with_timeout` by the source is
  modelled by its outcome enumeration, which includes the timeout case.
  The publish admission await (`waiter.await` in `on_command_publish`) is not
  wrapped in the source, so its result depends only on whether, and at what
  time, the one-shot response arrives (`AdmissionEnv.responseArrival`); the
  arrival time never influences the computed result.
-/

/-- Chunk header formats (`chunk/define.rs`, `ChunkType`). -/
inductive ChunkType
  | type0
  | type1
  | type2
  | type3
deriving DecidableEq

/-- Message type ids (`messages/define.rs`, `MessageType`; `parser.rs` refers
to the same enumeration as `MessageTypeId`). -/
inductive MessageTypeId
  | setChunkSize
  | abort
  | acknowledgement
  | userControlEvent
  | windowAcknowledgementSize
  | setPeerBandwidth
  | audio
  | video
  | dataAMF3
  | sharedObjAMF3
  | commandAMF3
  | dataAMF0
  | sharedObjAMF0
  | commandAMF0
  | aggregate
deriving DecidableEq

/-- Modelled from the spec: AMF0 values, the self-describing key/value
encoding carried by command messages (the `scuffle-amf0` crate of this
repository is not among the given sources).  Only the markers the modelled
code distinguishes are included; numbers are rationals (see the module
comment). -/
inductive Amf0Value
  | number (n : ℚ)
  | boolean (b : Bool)
  | string (s : String)
  | object (entries : List (String × Amf0Value))
  | null

/-- Modelled from the spec: the AMF0 type markers used by
`Amf0Decoder::decode_with_type`. -/
inductive Amf0Marker
  | number
  | boolean
  | string
  | object
  | null
deriving DecidableEq

/-- The marker describing an AMF0 value. -/
def Amf0Value.marker : Amf0Value → Amf0Marker
  | .number _ => .number
  | .boolean _ => .boolean
  | .string _ => .string
  | .object _ => .object
  | .null => .null

/-- Whether a value is an AMF0 string. -/
def Amf0Value.isString : Amf0Value → Bool
  | .string _ => true
  | _ => false

/-- Whether a value is an AMF0 number. -/
def Amf0Value.isNumber : Amf0Value → Bool
  | .number _ => true
  | _ => false

/-- Whether a value is an AMF0 object. -/
def Amf0Value.isObject : Amf0Value → Bool
  | .object _ => true
  | _ => false

/-- A chunk payload (`Bytes` in the source): raw bytes for media and
protocol-control payloads, or the decoded AMF0 value sequence for command
payloads (the AMF0 byte grammar lives in a crate not among the given
sources, so command payloads are modelled at the value level). -/
inductive Payload
  | raw (bytes : List Nat)
  | amf0 (values : List Amf0Value)

/-- Length of a payload, in its own units. -/
def Payload.size : Payload → Nat
  | .raw bs => bs.length
  | .amf0 vs => vs.length

/-- The operating chunk size announced by this implementation
(`chunk/define.rs`: `pub const CHUNK_SIZE: usize = 4096;`). -/
def CHUNK_SIZE : Nat := 4096

/-- The hard cap on any peer-requested chunk size
(`chunk/define.rs`: `pub const MAX_CHUNK_SIZE: usize = 4096 * 16;`). -/
def MAX_CHUNK_SIZE : Nat := 4096 * 16

/-- The default initial chunk size
(`chunk/define.rs`: `pub const INIT_CHUNK_SIZE: usize = 128;`). -/
def INIT_CHUNK_SIZE : Nat := 128

/-- A chunk basic header (`chunk/define.rs`). -/
structure ChunkBasicHeader where
  format : ChunkType
  chunk_stream_id : Nat
deriving DecidableEq

/-- A chunk message header (`chunk/define.rs`). -/
structure ChunkMessageHeader where
  timestamp : Nat
  msg_length : Nat
  msg_type_id : MessageTypeId
  msg_stream_id : Nat
  was_extended_timestamp : Bool
deriving DecidableEq

/-- Source (`chunk/define.rs`): `is_extended_timestamp` returns true if the
timestamp is `>= 0xFFFFFF`. -/
def ChunkMessageHeader.is_extended_timestamp (h : ChunkMessageHeader) : Bool :=
  decide (0xFFFFFF ≤ h.timestamp)

/-- A chunk (`chunk/define.rs`). -/
structure Chunk where
  basic_header : ChunkBasicHeader
  message_header : ChunkMessageHeader
  payload : Payload

/-- Source (`chunk/define.rs`): `Chunk::new`, a helper building a type-0
chunk whose message length is the payload length. -/
def Chunk.new (chunk_stream_id timestamp : Nat) (msg_type_id : MessageTypeId)
    (msg_stream_id : Nat) (payload : Payload) : Chunk where
  basic_header := { format := .type0, chunk_stream_id := chunk_stream_id }
  message_header :=
    { timestamp := timestamp
      msg_length := payload.size
      msg_type_id := msg_type_id
      msg_stream_id := msg_stream_id
      was_extended_timestamp := false }
  payload := payload

/-- Errors of the message layer (`messages/errors.rs` is not among the given
sources; the parser surfaces AMF0 decode errors and protocol-control read
errors, which is all the modelled code distinguishes). -/
inductive MessageError
  | amf0Read
  | protocolControlRead
deriving DecidableEq

/-- Modelled from the spec: `Amf0Decoder::decode_with_type` (the
`scuffle-amf0` crate is not among the given sources).  It checks the marker
of the next value and yields it without consuming anything on a marker
mismatch or on exhausted input. -/
def decodeWithType (values : List Amf0Value) (marker : Amf0Marker) :
    Except MessageError (Amf0Value × List Amf0Value) :=
  match values with
  | [] => .error .amf0Read
  | v :: rest => if v.marker = marker then .ok (v, rest) else .error .amf0Read

/-- Modelled from the spec: `ProtocolControlMessageSetChunkSize::read`
(`protocol_control_messages/reader.rs` is not among the given sources); the
wire format is a 4-byte big-endian size. -/
def readSetChunkSize : Payload → Except MessageError Nat
  | .raw (b0 :: b1 :: b2 :: b3 :: _) =>
      .ok ((b0 % 256) * 16777216 + (b1 % 256) * 65536 + (b2 % 256) * 256 + b3 % 256)
  | _ => .error .protocolControlRead

/-- A typed message produced by the message layer (`messages/define.rs`,
`MessageData`; the session file refers to it as `RtmpMessageData` with the
same variants). -/
inductive MessageData
  | setChunkSize (chunk_size : Nat)
  | amf0Command (command_name transaction_id command_object : Amf0Value)
      (others : List Amf0Value)
  | amf0Data (data : Payload)
  | audioData (data : Payload)
  | videoData (data : Payload)

/-- The AMF0 view of a payload (`Amf0Decoder::new(&chunk.payload)`): a raw
byte payload has no value-level decoding in this model. -/
def Payload.amf0Values : Payload → Option (List Amf0Value)
  | .raw _ => none
  | .amf0 vs => some vs

/-- Source (`messages/parser.rs`): `MessageData::parse`.  It matches the
message type id; set-chunk-size, AMF0 command, AMF0 data, audio and video
payloads become typed messages, everything else is `Ok(None)`.  For a
command payload it decodes a string name, a number transaction id, an object
(falling back to a null marker), then all remaining values. -/
def MessageData.parse (chunk : Chunk) : Except MessageError (Option MessageData) :=
  match chunk.message_header.msg_type_id with
  | .setChunkSize =>
    match readSetChunkSize chunk.payload with
    | .ok n => .ok (some (.setChunkSize n))
    | .error e => .error e
  | .commandAMF0 =>
    match chunk.payload.amf0Values with
    | none => .error .amf0Read
    | some vs =>
      match decodeWithType vs .string with
      | .error e => .error e
      | .ok (command_name, vs1) =>
        match decodeWithType vs1 .number with
        | .error e => .error e
        | .ok (transaction_id, vs2) =>
          match (match decodeWithType vs2 .object with
                 | .ok r => (.ok r : Except MessageError (Amf0Value × List Amf0Value))
                 | .error _ => decodeWithType vs2 .null) with
          | .error e => .error e
          | .ok (command_object, others) =>
            .ok (some (.amf0Command command_name transaction_id command_object others))
  | .dataAMF0 => .ok (some (.amf0Data chunk.payload))
  | .audio => .ok (some (.audioData chunk.payload))
  | .video => .ok (some (.videoData chunk.payload))
  | _ => .ok none

/-- The message type ids for which `MessageData::parse` can produce a typed
message. -/
def handledMessageTypes : List MessageTypeId :=
  [.setChunkSize, .commandAMF0, .dataAMF0, .audio, .video]

/-- Session errors (`session/errors.rs` is not among the given sources; the
variants are the ones constructed by `server_session.rs`). -/
inductive SessionError
  | noAppName
  | noStreamName
  | publishRequestDenied
  | unknownStreamID (stream_id : Nat)
  | publisherDropped
  | invalidChunkSize (size : Nat)
  | playNotSupported
deriving DecidableEq

/-- A message appended to the session's write buffer by one writer call;
the byte serialisation is performed by writer helpers outside the session
file, so the buffer is modelled at message granularity. -/
inductive OutMsg
  | setChunkSizeMsg (size : Nat)
  | windowAckSize (size : Nat)
  | setPeerBandwidth (size : Nat) (limit_type : Nat)
  | connectResponse (transaction_id : ℚ) (fmsVer : String) (capabilities : ℚ)
      (code level description : String) (object_encoding : ℚ)
  | createStreamResponse (transaction_id : ℚ) (created_stream_id : ℚ)
  | streamBegin (stream_id : Nat)
  | onStatus (transaction_id : ℚ) (level code description : String)
deriving DecidableEq

/-- The session-private mutable state of `Session` (`server_session.rs`);
the negotiated decoder chunk size stands in for the `ChunkDecoder` instance,
and the I/O buffers are represented by the message-granular write buffer. -/
structure SessionState where
  app_name : Option String
  uid : Option Nat
  stream_id : Nat
  is_publishing : Bool
  decoder_max_chunk_size : Nat
  write_buf : List OutMsg
deriving DecidableEq

/-- The state of a freshly constructed session (`Session::new`). -/
def SessionState.new : SessionState :=
  { app_name := none
    uid := none
    stream_id := 0
    is_publishing := false
    decoder_max_chunk_size := INIT_CHUNK_SIZE
    write_buf := [] }

/-- The result of one session dispatch step: `Ok(())`, `Err(e)`, or a
suspension that never completes (possible only at the unwrapped publish
admission await).  The state carried by every constructor is the session
state at that point; a Rust `?`-style early return leaves the state as it
was when the error was produced. -/
inductive StepResult
  | ok (st : SessionState)
  | err (e : SessionError) (st : SessionState)
  | diverged (st : SessionState)
deriving DecidableEq

/-- Whether a step result is an error return. -/
def StepResult.isErr : StepResult → Bool
  | .err _ _ => true
  | _ => false

/-- The session state carried by a step result. -/
def StepResult.state : StepResult → SessionState
  | .ok st => st
  | .err _ st => st
  | .diverged st => st

/-- A media item sent to the external data producer (`channels.rs` is not
among the given sources; `ChannelData` carries the payload and the
timestamp of the wrapping chunk). -/
inductive ChannelData
  | audio (timestamp : Nat) (data : Payload)
  | video (timestamp : Nat) (data : Payload)
  | metadata (timestamp : Nat) (data : Payload)

/-- Outcome of the bounded send to the external media sink
(`self.data_producer.send(data).with_timeout(Duration::from_secs(2))`):
delivered, the two-second timeout elapsed (`Err(_)`), or the channel is
closed (`Ok(Err(_))`). -/
inductive DataSendOutcome
  | delivered
  | timedOut
  | closed
deriving DecidableEq

/-- The behaviour of the external admission collaborator for one publish
request: whether the shared-channel send of the request succeeds, at what
time (if ever) the one-shot response completes, and the response itself
(`some uid` when admission is granted, `none` when the response channel is
dropped, i.e. admission is denied). -/
structure AdmissionEnv where
  sendOk : Bool
  responseArrival : Option Nat
  response : Option Nat
deriving DecidableEq

/-- Modelled from the spec: the command-name mapping `RtmpCommand::from`
(`session/define.rs` is not among the given sources).  The dispatch rules
name connect, createStream, deleteStream, publish, play, closeStream and
releaseStream; every other name — including the empty name — is an
unrecognized command that is silently ignored. -/
inductive RtmpCommand
  | connect
  | createStream
  | deleteStream
  | play
  | publish
  | closeStream
  | releaseStream
  | unknown (name : String)
deriving DecidableEq

/-- Modelled from the spec: the string-to-command mapping. -/
def RtmpCommand.ofStr : String → RtmpCommand
  | "connect" => .connect
  | "createStream" => .createStream
  | "deleteStream" => .deleteStream
  | "play" => .play
  | "publish" => .publish
  | "closeStream" => .closeStream
  | "releaseStream" => .releaseStream
  | s => .unknown s

/-- Source (`server_session.rs`, `on_amf0_command_message`): a command name
that is not an AMF0 string is replaced by the empty string. -/
def commandNameOf : Amf0Value → String
  | .string s => s
  | _ => ""

/-- Source (`server_session.rs`, `on_amf0_command_message`): a transaction
id that is not an AMF0 number is replaced by `0.0`. -/
def transactionIdOf : Amf0Value → ℚ
  | .number n => n
  | _ => 0

/-- Source (`server_session.rs`, `on_amf0_command_message`): a command
object that is not an AMF0 object is replaced by an empty object. -/
def commandObjectOf : Amf0Value → List (String × Amf0Value)
  | .object o => o
  | _ => []

/-- The Rust saturating cast `f64 as u32`: truncate toward zero and clamp to
`[0, u32::MAX]` (NaN, which casts to 0, has no rational model; no modelled
code produces it). -/
def f64ToU32 (q : ℚ) : Nat := (min 4294967295 (max 0 ⌊q⌋)).toNat

/-- Source (`server_session.rs`, `on_command_delete_stream`): the stream id
is read from the first trailing value; a missing or non-number value is
`0.0`, and the number is cast with `as u32`. -/
def deleteStreamIdOf (others : List Amf0Value) : Nat :=
  match others.head? with
  | some (.number n) => f64ToU32 n
  | _ => 0

/-- Modelled from the spec: `ChunkDecoder::update_max_chunk_size` (the chunk
decoder sources are not among the given files).  The negotiated size is
mutable up to the hard cap `MAX_CHUNK_SIZE`; a request above the cap is
rejected. -/
def update_max_chunk_size (chunk_size : Nat) : Option Nat :=
  if chunk_size ≤ MAX_CHUNK_SIZE then some chunk_size else none

/-- Source (`server_session.rs`): `on_set_chunk_size`; a rejected update
yields `SessionError::InvalidChunkSize`. -/
def onSetChunkSize (st : SessionState) (chunk_size : Nat) : StepResult :=
  match update_max_chunk_size chunk_size with
  | some newSize => .ok { st with decoder_max_chunk_size := newSize }
  | none => .err (.invalidChunkSize chunk_size) st

/-- Source (`server_session.rs`): `on_data`.  A stream id differing from the
bound one, or a session that is not publishing, is
`SessionError::UnknownStreamID`; otherwise the item is handed to the data
producer (second component), and a timeout or closed channel is
`SessionError::PublisherDropped`. -/
def onData (st : SessionState) (outcome : DataSendOutcome) (stream_id : Nat)
    (data : ChannelData) : StepResult × List ChannelData :=
  if stream_id ≠ st.stream_id ∨ st.is_publishing = false then
    (.err (.unknownStreamID stream_id) st, [])
  else
    match outcome with
    | .delivered => (.ok st, [data])
    | .timedOut => (.err .publisherDropped st, [data])
    | .closed => (.err .publisherDropped st, [data])

/-- Source (`server_session.rs`): `on_command_connect`.  It first writes the
window-acknowledgement-size and set-peer-bandwidth control messages, then
looks up the `app` entry of the command object; a missing or non-string
entry is `SessionError::NoAppName`, otherwise the app name is recorded and
the connect response is written. -/
def onCommandConnect (st : SessionState) (transaction_id : ℚ) (_stream_id : Nat)
    (command_obj : List (String × Amf0Value)) (_others : List Amf0Value) : StepResult :=
  let st1 := { st with write_buf := st.write_buf ++ [OutMsg.windowAckSize CHUNK_SIZE] }
  let st2 := { st1 with write_buf := st1.write_buf ++ [OutMsg.setPeerBandwidth CHUNK_SIZE 2] }
  match command_obj.find? (fun p => p.1 == "app") with
  | some (_, .string app) =>
    let st3 := { st2 with app_name := some app }
    .ok { st3 with write_buf := st3.write_buf ++
      [OutMsg.connectResponse transaction_id "FMS/3,0,1,123" 31
        "NetConnection.Connect.Success" "status" "Connection Succeeded." 0] }
  | _ => .err .noAppName st2

/-- Source (`server_session.rs`): `on_command_create_stream`; always replies
allocating stream id `1.0`. -/
def onCommandCreateStream (st : SessionState) (transaction_id : ℚ) (_stream_id : Nat)
    (_command_obj : List (String × Amf0Value)) (_others : List Amf0Value) : StepResult :=
  .ok { st with write_buf := st.write_buf ++ [OutMsg.createStreamResponse transaction_id 1] }

/-- Source (`server_session.rs`): `on_command_delete_stream`.  The publishing
state is cleared when the coerced stream id equals the bound one and the
session is publishing; the success `onStatus` reply is always written. -/
def onCommandDeleteStream (st : SessionState) (transaction_id : ℚ) (_stream_id : Nat)
    (_command_obj : List (String × Amf0Value)) (others : List Amf0Value) : StepResult :=
  let sid := deleteStreamIdOf others
  let st1 :=
    if st.stream_id = sid ∧ st.is_publishing = true then
      { st with stream_id := 0, is_publishing := false }
    else st
  .ok { st1 with write_buf := st1.write_buf ++
    [OutMsg.onStatus transaction_id "status" "NetStream.DeleteStream.Suceess" ""] }

/-- Source (`server_session.rs`): `on_command_publish`.  A missing or
non-string stream name is `SessionError::NoStreamName`; a session without a
recorded app name is `SessionError::NoAppName`.  A failed request send or a
dropped response channel is `SessionError::PublishRequestDenied`; a response
that never arrives suspends the session forever (the await carries no
timeout in the source).  On a granted response the uid is recorded, the
session is marked publishing, the message's stream id is bound, and a
stream-begin event followed by a publish-start `onStatus` reply is written. -/
def onCommandPublish (st : SessionState) (env : AdmissionEnv) (transaction_id : ℚ)
    (stream_id : Nat) (_command_obj : List (String × Amf0Value))
    (others : List Amf0Value) : StepResult :=
  match others.head? with
  | some (.string _stream_name) =>
    match st.app_name with
    | none => .err .noAppName st
    | some _app =>
      if env.sendOk = false then .err .publishRequestDenied st
      else
        match env.responseArrival with
        | none => .diverged st
        | some _arrival =>
          match env.response with
          | none => .err .publishRequestDenied st
          | some uid =>
            let st1 := { st with uid := some uid, is_publishing := true, stream_id := stream_id }
            let st2 := { st1 with write_buf := st1.write_buf ++ [OutMsg.streamBegin stream_id] }
            .ok { st2 with write_buf := st2.write_buf ++
              [OutMsg.onStatus transaction_id "status" "NetStream.Publish.Start" ""] }
  | _ => .err .noStreamName st

/-- Source (`server_session.rs`): `on_amf0_command_message`.  The command
name, transaction id and command object are coerced (`commandNameOf`,
`transactionIdOf`, `commandObjectOf`), then a single match on the command
tag dispatches to the handlers; play is rejected, closeStream, releaseStream
and unknown commands are ignored. -/
def onAmf0CommandMessage (st : SessionState) (env : AdmissionEnv) (stream_id : Nat)
    (command_name transaction_id command_object : Amf0Value)
    (others : List Amf0Value) : StepResult :=
  match RtmpCommand.ofStr (commandNameOf command_name) with
  | .connect =>
    onCommandConnect st (transactionIdOf transaction_id) stream_id
      (commandObjectOf command_object) others
  | .createStream =>
    onCommandCreateStream st (transactionIdOf transaction_id) stream_id
      (commandObjectOf command_object) others
  | .deleteStream =>
    onCommandDeleteStream st (transactionIdOf transaction_id) stream_id
      (commandObjectOf command_object) others
  | .play => .err .playNotSupported st
  | .publish =>
    onCommandPublish st env (transactionIdOf transaction_id) stream_id
      (commandObjectOf command_object) others
  | .closeStream => .ok st
  | .releaseStream => .ok st
  | .unknown _ => .ok st

/-- Source (`server_session.rs`): `process_messages`, the single dispatch
over the typed-message tag, threading the wrapping chunk's message stream id
and timestamp. -/
def processMessages (st : SessionState) (env : AdmissionEnv) (outcome : DataSendOutcome)
    (msg : MessageData) (stream_id timestamp : Nat) : StepResult × List ChannelData :=
  match msg with
  | .amf0Command command_name transaction_id command_object others =>
    (onAmf0CommandMessage st env stream_id command_name transaction_id command_object others, [])
  | .setChunkSize chunk_size => (onSetChunkSize st chunk_size, [])
  | .audioData data => onData st outcome stream_id (.audio timestamp data)
  | .videoData data => onData st outcome stream_id (.video timestamp data)
  | .amf0Data data => onData st outcome stream_id (.metadata timestamp data)

/-- A session state in the Ready stage after a successful connect. -/
def stReady : SessionState :=
  { app_name := some "live"
    uid := none
    stream_id := 0
    is_publishing := false
    decoder_max_chunk_size := INIT_CHUNK_SIZE
    write_buf := [] }

/-- A session state currently publishing on stream id 1. -/
def stPublishing : SessionState :=
  { app_name := some "live"
    uid := some 7
    stream_id := 1
    is_publishing := true
    decoder_max_chunk_size := INIT_CHUNK_SIZE
    write_buf := [] }

/-- A session state currently publishing on stream id 0 (reachable by a
publish command arriving on message stream id 0). -/
def stPublishingZero : SessionState :=
  { stPublishing with stream_id := 0 }

/-- C8: for every chunk message header, the extended-timestamp escape is
triggered exactly at the boundary 0xFFFFFF: `is_extended_timestamp` returns
false for timestamp 0xFFFFFE and true for every timestamp greater than or
equal to 0xFFFFFF. -/
theorem extended_timestamp_boundary (h : ChunkMessageHeader) :
    (h.timestamp = 0xFFFFFE → h.is_extended_timestamp = false)
    ∧ (0xFFFFFF ≤ h.timestamp → h.is_extended_timestamp = true) := by
  unfold ChunkMessageHeader.is_extended_timestamp
  constructor
  · intro ht
    simp [ht]
  · intro ht
    simp [ht]

/-- C8 witness: the boundary evaluated at the concrete headers with
timestamps 0xFFFFFE and 0xFFFFFF. -/
theorem extended_timestamp_boundary_witness :
    ((⟨0xFFFFFE, 0, .audio, 0, false⟩ : ChunkMessageHeader).timestamp = 0xFFFFFE
      ∧ (⟨0xFFFFFE, 0, .audio, 0, false⟩ : ChunkMessageHeader).is_extended_timestamp = false)
    ∧ (0xFFFFFF ≤ (⟨0xFFFFFF, 0, .audio, 0, false⟩ : ChunkMessageHeader).timestamp
      ∧ (⟨0xFFFFFF, 0, .audio, 0, false⟩ : ChunkMessageHeader).is_extended_timestamp = true) :=
  ⟨⟨rfl, (extended_timestamp_boundary _).1 rfl⟩,
   ⟨by decide, (extended_timestamp_boundary _).2 (by decide)⟩⟩

/-- C2: an inbound set-chunk-size whose requested size is within the hard
cap of 65536 bytes is applied to the decoder's negotiated chunk size, and a
requested size exceeding the cap makes `on_set_chunk_size` return an
invalid-chunk-size error rather than clamping the value. -/
theorem on_set_chunk_size_cap (st : SessionState) (chunk_size : Nat) :
    (chunk_size ≤ MAX_CHUNK_SIZE →
      onSetChunkSize st chunk_size = .ok { st with decoder_max_chunk_size := chunk_size })
    ∧ (MAX_CHUNK_SIZE < chunk_size →
      onSetChunkSize st chunk_size = .err (.invalidChunkSize chunk_size) st) := by
  unfold onSetChunkSize update_max_chunk_size
  constructor
  · intro hle
    simp [hle]
  · intro hgt
    simp [Nat.not_le.mpr hgt]

/-- C2 witness: a request of 4096 bytes is applied, a request of 65537 bytes
is rejected with the invalid-chunk-size error. -/
theorem on_set_chunk_size_cap_witness :
    (4096 ≤ MAX_CHUNK_SIZE
      ∧ onSetChunkSize SessionState.new 4096 =
          .ok { SessionState.new with decoder_max_chunk_size := 4096 })
    ∧ (MAX_CHUNK_SIZE < 65537
      ∧ onSetChunkSize SessionState.new 65537 =
          .err (.invalidChunkSize 65537) SessionState.new) :=
  ⟨⟨by decide, (on_set_chunk_size_cap SessionState.new 4096).1 (by decide)⟩,
   ⟨by decide, (on_set_chunk_size_cap SessionState.new 65537).2 (by decide)⟩⟩

/-- C7: `MessageData::parse` returns a typed message only for the handled
message type ids (set-chunk-size, AMF0 command, AMF0 data, audio, video) and
returns `Ok(None)` — never an error — for every other message type id. -/
theorem message_parse_handled_types (c : Chunk) :
    (∀ m, MessageData.parse c = .ok (some m) → c.message_header.msg_type_id ∈ handledMessageTypes)
    ∧ (c.message_header.msg_type_id ∉ handledMessageTypes →
        MessageData.parse c = .ok none) := by
  unfold MessageData.parse
  rcases hid : c.message_header.msg_type_id <;>
    simp [hid, handledMessageTypes]

/-- C7 witness: an abort chunk is not a handled message type and parses to
`Ok(None)`. -/
theorem message_parse_handled_types_witness :
    ((Chunk.new 3 0 .abort 0 (.raw [])).message_header.msg_type_id ∉ handledMessageTypes)
    ∧ MessageData.parse (Chunk.new 3 0 .abort 0 (.raw [])) = .ok none :=
  ⟨by decide, (message_parse_handled_types _).2 (by decide)⟩

/-- C3: `on_data` returns the fatal unknown-stream-id error exactly when the
message's stream id differs from the session's bound publishing stream id or
the session is not publishing; when the ids match and the session is
publishing, the item (payload plus timestamp) is handed to the external
sink, and a send timeout or closed sink yields the fatal publisher-dropped
error. -/
theorem on_data_dispatch (st : SessionState) (outcome : DataSendOutcome)
    (stream_id : Nat) (data : ChannelData) :
    ((onData st outcome stream_id data).1 = .err (.unknownStreamID stream_id) st
        ↔ stream_id ≠ st.stream_id ∨ st.is_publishing = false)
    ∧ (stream_id = st.stream_id → st.is_publishing = true →
        (onData st outcome stream_id data).2 = [data]
        ∧ (outcome = .delivered → (onData st outcome stream_id data).1 = .ok st)
        ∧ (outcome ≠ .delivered →
            (onData st outcome stream_id data).1 = .err .publisherDropped st)) := by
  unfold onData
  by_cases hguard : stream_id ≠ st.stream_id ∨ st.is_publishing = false
  · rw [if_pos hguard]
    refine ⟨⟨fun _ => hguard, fun _ => rfl⟩, fun h1 h2 => ?_⟩
    rcases hguard with hg | hg
    · exact absurd h1 hg
    · simp [h2] at hg
  · rw [if_neg hguard]
    push_neg at hguard
    obtain ⟨hsid, hpub⟩ := hguard
    cases outcome <;> simp [hsid, hpub]

/-- C3 witness: a delivered audio item on the bound stream of a publishing
session is forwarded and the step succeeds. -/
theorem on_data_dispatch_witness :
    (1 = stPublishing.stream_id ∧ stPublishing.is_publishing = true)
    ∧ (onData stPublishing .delivered 1 (.audio 0 (.raw [1, 2]))).2 = [.audio 0 (.raw [1, 2])]
    ∧ (onData stPublishing .delivered 1 (.audio 0 (.raw [1, 2]))).1 = .ok stPublishing :=
  ⟨⟨rfl, rfl⟩,
   ((on_data_dispatch stPublishing .delivered 1 (.audio 0 (.raw [1, 2]))).2 rfl rfl).1,
   ((on_data_dispatch stPublishing .delivered 1 (.audio 0 (.raw [1, 2]))).2 rfl rfl).2.1 rfl⟩

/-- Helper: `on_command_connect` under a command object without any
string-valued `app` entry writes the two control messages and then fails
with the missing-app-name error, leaving the rest of the state unchanged. -/
theorem onCommandConnect_missing_app (st : SessionState) (transaction_id : ℚ)
    (stream_id : Nat) (command_obj : List (String × Amf0Value)) (others : List Amf0Value)
    (hno : ∀ v, ("app", v) ∈ command_obj → v.isString = false) :
    onCommandConnect st transaction_id stream_id command_obj others =
      .err .noAppName { st with write_buf := st.write_buf ++
        [OutMsg.windowAckSize CHUNK_SIZE, OutMsg.setPeerBandwidth CHUNK_SIZE 2] } := by
  unfold onCommandConnect
  cases hfind : command_obj.find? (fun p => p.1 == "app") with
  | none => simp [hfind, List.append_assoc]
  | some kv =>
    obtain ⟨k, v⟩ := kv
    have hmem : (k, v) ∈ command_obj := List.mem_of_find?_eq_some hfind
    have hk : k = "app" := by
      have h2 := List.find?_some hfind
      simpa using h2
    subst hk
    have hv := hno v hmem
    cases v
    case string s => simp [Amf0Value.isString] at hv
    all_goals simp [hfind, List.append_assoc]

/-- C9: the missing-app-name failure of a connect command is not atomic with
respect to the session's output: the window-acknowledgement-size and
set-peer-bandwidth control messages are appended to the write buffer before
the error is returned, and the buffer is not rolled back. -/
theorem connect_missing_app_partial_writes (st : SessionState) (transaction_id : ℚ)
    (stream_id : Nat) (command_obj : List (String × Amf0Value)) (others : List Amf0Value)
    (hno : ∀ v, ("app", v) ∈ command_obj → v.isString = false) :
    onCommandConnect st transaction_id stream_id command_obj others =
      .err .noAppName { st with write_buf := st.write_buf ++
        [OutMsg.windowAckSize CHUNK_SIZE, OutMsg.setPeerBandwidth CHUNK_SIZE 2] } :=
  onCommandConnect_missing_app st transaction_id stream_id command_obj others hno

/-- C9 witness: a connect whose only `app` entry is a number still leaves
the two control messages in the write buffer next to the error. -/
theorem connect_missing_app_partial_writes_witness :
    (∀ v, ("app", v) ∈ ([("app", Amf0Value.number 1)] : List (String × Amf0Value)) →
      v.isString = false)
    ∧ onCommandConnect stReady 0 0 [("app", Amf0Value.number 1)] [] =
      .err .noAppName { stReady with write_buf := stReady.write_buf ++
        [OutMsg.windowAckSize CHUNK_SIZE, OutMsg.setPeerBandwidth CHUNK_SIZE 2] } := by
  have hno : ∀ v, ("app", v) ∈ ([("app", Amf0Value.number 1)] : List (String × Amf0Value)) →
      Amf0Value.isString v = false := by
    intro v hv
    simp at hv
    subst hv
    rfl
  exact ⟨hno, connect_missing_app_partial_writes stReady 0 0 [("app", Amf0Value.number 1)] [] hno⟩

/-- A connect command chunk at the message layer: AMF0 command payload with
the name `connect`, a numeric transaction id, a command object, and trailing
values. -/
def connectChunk (transaction_id : ℚ) (command_obj : List (String × Amf0Value))
    (others : List Amf0Value) : Chunk :=
  Chunk.new 3 0 .commandAMF0 0
    (.amf0 ([.string "connect", .number transaction_id, .object command_obj] ++ others))

/-- C6: an AMF0 command message named connect whose command object contains
no string-valued app entry parses at the message layer into a typed command
message without error, but session dispatch of that command returns the
fatal missing-app-name error and app_name remains unset. -/
theorem connect_missing_app_dispatch (st : SessionState) (env : AdmissionEnv)
    (stream_id : Nat) (transaction_id : ℚ) (command_obj : List (String × Amf0Value))
    (others : List Amf0Value)
    (hno : ∀ v, ("app", v) ∈ command_obj → v.isString = false) :
    MessageData.parse (connectChunk transaction_id command_obj others) =
      .ok (some (.amf0Command (.string "connect") (.number transaction_id)
        (.object command_obj) others))
    ∧ ∃ st', onAmf0CommandMessage st env stream_id (.string "connect")
          (.number transaction_id) (.object command_obj) others = .err .noAppName st'
        ∧ st'.app_name = st.app_name := by
  constructor
  · rfl
  · have hdisp : onAmf0CommandMessage st env stream_id (.string "connect")
        (.number transaction_id) (.object command_obj) others =
        onCommandConnect st transaction_id stream_id command_obj others := rfl
    rw [hdisp,
      onCommandConnect_missing_app st transaction_id stream_id command_obj others hno]
    exact ⟨_, rfl, rfl⟩

/-- C6 witness: a connect command with an empty command object parses at the
message layer and fails dispatch with the missing-app-name error. -/
theorem connect_missing_app_dispatch_witness :
    (∀ v, ("app", v) ∈ ([] : List (String × Amf0Value)) → v.isString = false)
    ∧ MessageData.parse (connectChunk 1 [] []) =
        .ok (some (.amf0Command (.string "connect") (.number 1) (.object []) []))
    ∧ ∃ st', onAmf0CommandMessage SessionState.new ⟨true, none, none⟩ 0 (.string "connect")
          (.number 1) (.object []) [] = .err .noAppName st'
        ∧ st'.app_name = SessionState.new.app_name := by
  have hno : ∀ v, ("app", v) ∈ ([] : List (String × Amf0Value)) →
      Amf0Value.isString v = false := by
    intro v hv
    simp at hv
  obtain ⟨h1, h2⟩ :=
    connect_missing_app_dispatch SessionState.new ⟨true, none, none⟩ 0 1 [] [] hno
  exact ⟨hno, h1, h2⟩

/-- Helper: `on_command_delete_stream` always returns Ok. -/
theorem onCommandDeleteStream_ok (st : SessionState) (transaction_id : ℚ)
    (stream_id : Nat) (command_obj : List (String × Amf0Value)) (others : List Amf0Value) :
    ∃ st', onCommandDeleteStream st transaction_id stream_id command_obj others = .ok st' := by
  unfold onCommandDeleteStream
  exact ⟨_, rfl⟩

/-- C10: command dispatch coerces malformed command fields instead of
erroring: a non-string command name is treated as the empty name and the
command is silently ignored as unknown, a non-number transaction id is
coerced to 0.0, a non-object command object is treated as an empty object,
and dispatch returns an error only when the coerced name selects the
connect, play or publish handler. -/
theorem amf0_command_coercion (st : SessionState) (env : AdmissionEnv) (stream_id : Nat)
    (command_name transaction_id command_object : Amf0Value) (others : List Amf0Value) :
    (command_name.isString = false →
      onAmf0CommandMessage st env stream_id command_name transaction_id command_object
        others = .ok st)
    ∧ (transaction_id.isNumber = false →
      onAmf0CommandMessage st env stream_id command_name transaction_id command_object
          others =
        onAmf0CommandMessage st env stream_id command_name (.number 0) command_object others)
    ∧ (command_object.isObject = false →
      onAmf0CommandMessage st env stream_id command_name transaction_id command_object
          others =
        onAmf0CommandMessage st env stream_id command_name transaction_id (.object []) others)
    ∧ (∀ e st', onAmf0CommandMessage st env stream_id command_name transaction_id
          command_object others = .err e st' →
        RtmpCommand.ofStr (commandNameOf command_name) ∈
          [RtmpCommand.connect, RtmpCommand.play, RtmpCommand.publish]) := by
  refine ⟨?_, ?_, ?_, ?_⟩
  · intro h
    cases command_name
    case string s => simp [Amf0Value.isString] at h
    all_goals rfl
  · intro h
    have htid : transactionIdOf transaction_id = transactionIdOf (Amf0Value.number 0) := by
      cases transaction_id
      case number n => simp [Amf0Value.isNumber] at h
      all_goals rfl
    unfold onAmf0CommandMessage
    rw [htid]
  · intro h
    have hobj : commandObjectOf command_object = commandObjectOf (Amf0Value.object []) := by
      cases command_object
      case object o => simp [Amf0Value.isObject] at h
      all_goals rfl
    unfold onAmf0CommandMessage
    rw [hobj]
  · intro e st' h
    unfold onAmf0CommandMessage at h
    rcases hofs : RtmpCommand.ofStr (commandNameOf command_name) with
      _ | _ | _ | _ | _ | _ | _ | s <;> rw [hofs] at h
    case connect => simp
    case createStream => simp [onCommandCreateStream] at h
    case deleteStream =>
      obtain ⟨st2, hok⟩ :=
        onCommandDeleteStream_ok st (transactionIdOf transaction_id) stream_id
          (commandObjectOf command_object) others
      rw [hok] at h
      exact StepResult.noConfusion h
    case play => simp
    case publish => simp
    case closeStream => exact StepResult.noConfusion h
    case releaseStream => exact StepResult.noConfusion h
    case unknown => exact StepResult.noConfusion h

/-- C10 witness: a command whose name is the number 3 is not a string, and
dispatch silently succeeds leaving the state unchanged. -/
theorem amf0_command_coercion_witness :
    (Amf0Value.isString (Amf0Value.number 3) = false)
    ∧ onAmf0CommandMessage stReady ⟨true, none, none⟩ 0 (.number 3) (.number 1)
        .null [] = .ok stReady :=
  ⟨rfl,
   (amf0_command_coercion stReady ⟨true, none, none⟩ 0 (.number 3) (.number 1)
      .null []).1 rfl⟩

/-- C4: a publish command carrying a stream name, once the admission
collaborator approves, records the returned session identifier, sets
is_publishing, binds the message's stream id, and writes exactly one
stream-begin user-control event for that id followed by exactly one
onStatus reply with code NetStream.Publish.Start, in that order. -/
theorem publish_success_effects (st : SessionState) (env : AdmissionEnv)
    (transaction_id : ℚ) (stream_id : Nat) (command_obj : List (String × Amf0Value))
    (others : List Amf0Value) (stream_name app : String) (arrival uid : Nat)
    (hname : others.head? = some (.string stream_name))
    (happ : st.app_name = some app)
    (hsend : env.sendOk = true)
    (harr : env.responseArrival = some arrival)
    (hresp : env.response = some uid) :
    onCommandPublish st env transaction_id stream_id command_obj others =
      .ok { st with
            uid := some uid
            is_publishing := true
            stream_id := stream_id
            write_buf := st.write_buf ++ [OutMsg.streamBegin stream_id,
              OutMsg.onStatus transaction_id "status" "NetStream.Publish.Start" ""] } := by
  unfold onCommandPublish
  simp [hname, happ, hsend, harr, hresp]

/-- C4 witness: a concrete approved publish on stream id 1 with uid 42. -/
theorem publish_success_effects_witness :
    ([Amf0Value.string "key"].head? = some (Amf0Value.string "key")
      ∧ stReady.app_name = some "live"
      ∧ (⟨true, some 3, some 42⟩ : AdmissionEnv).sendOk = true
      ∧ (⟨true, some 3, some 42⟩ : AdmissionEnv).responseArrival = some 3
      ∧ (⟨true, some 3, some 42⟩ : AdmissionEnv).response = some 42)
    ∧ onCommandPublish stReady ⟨true, some 3, some 42⟩ 5 1 [] [Amf0Value.string "key"] =
      .ok { stReady with
            uid := some 42
            is_publishing := true
            stream_id := 1
            write_buf := stReady.write_buf ++ [OutMsg.streamBegin 1,
              OutMsg.onStatus 5 "status" "NetStream.Publish.Start" ""] } :=
  ⟨⟨rfl, rfl, rfl, rfl, rfl⟩,
   publish_success_effects stReady ⟨true, some 3, some 42⟩ 5 1 [] [Amf0Value.string "key"]
     "key" "live" 3 42 rfl rfl rfl rfl rfl⟩

/-- C1 counterexample: the publish admission await carries no fixed bound
timeout.  For every candidate bound there is a granted response arriving
strictly later on which the publish step still succeeds instead of failing,
so no bound exists past which waiting is treated as a fatal error. -/
theorem publish_await_unbounded_counterexample :
    ¬ ∃ bound : Nat, ∀ arrival uid : Nat, bound < arrival →
      (onCommandPublish stReady ⟨true, some arrival, some uid⟩ 0 1 []
        [Amf0Value.string "key"]).isErr = true := by
  rintro ⟨bound, hb⟩
  have h := hb (bound + 1) 42 (Nat.lt_succ_self bound)
  have h2 : (onCommandPublish stReady ⟨true, some (bound + 1), some 42⟩ 0 1 []
      [Amf0Value.string "key"]).isErr = false := rfl
  rw [h2] at h
  exact Bool.noConfusion h

/-- C1 (amended): for every publish command dispatched in the Ready state,
after the admission request is sent the session awaits the admission
collaborator's response with no timeout bound (a response that never
arrives suspends the step forever), and an admission denial or a failure of
either direction of the request/response channel causes the step to fail
with the publish-request-denied error, with the session state — in
particular is_publishing — left unchanged. -/
theorem publish_admission_failure_denied (st : SessionState) (env : AdmissionEnv)
    (transaction_id : ℚ) (stream_id : Nat) (command_obj : List (String × Amf0Value))
    (others : List Amf0Value) (stream_name app : String)
    (hname : others.head? = some (.string stream_name))
    (happ : st.app_name = some app) :
    (env.sendOk = false →
      onCommandPublish st env transaction_id stream_id command_obj others =
        .err .publishRequestDenied st)
    ∧ (env.sendOk = true → env.responseArrival = none →
      onCommandPublish st env transaction_id stream_id command_obj others = .diverged st)
    ∧ (∀ arrival, env.responseArrival = some arrival → env.response = none →
      onCommandPublish st env transaction_id stream_id command_obj others =
        .err .publishRequestDenied st) := by
  unfold onCommandPublish
  refine ⟨?_, ?_, ?_⟩
  · intro hs
    simp [hname, happ, hs]
  · intro hs hr
    simp [hname, happ, hs, hr]
  · intro arrival hr hresp
    cases hs : env.sendOk
    · simp [hname, happ, hs]
    · simp [hname, happ, hs, hr, hresp]

/-- C1 witness: a failed request send on a connected session yields the
publish-request-denied error with the state unchanged. -/
theorem publish_admission_failure_denied_witness :
    ([Amf0Value.string "key"].head? = some (Amf0Value.string "key")
      ∧ stReady.app_name = some "live"
      ∧ (⟨false, none, none⟩ : AdmissionEnv).sendOk = false)
    ∧ onCommandPublish stReady ⟨false, none, none⟩ 0 1 [] [Amf0Value.string "key"] =
        .err .publishRequestDenied stReady :=
  ⟨⟨rfl, rfl, rfl⟩,
   (publish_admission_failure_denied stReady ⟨false, none, none⟩ 0 1 []
      [Amf0Value.string "key"] "key" "live" rfl rfl).1 rfl⟩

/-- C5 counterexample: a deleteStream command whose trailing values carry no
stream id at all (the first trailing value is absent, hence not a number)
still clears the publishing state when the bound stream id is 0, so the
clearing is not conditioned exactly on a given stream id matching the bound
one. -/
theorem delete_stream_clear_counterexample :
    (∀ n : ℚ, ([] : List Amf0Value).head? ≠ some (.number n))
    ∧ stPublishingZero.is_publishing = true
    ∧ (onCommandDeleteStream stPublishingZero 0 0 [] []).state.is_publishing = false := by
  refine ⟨?_, rfl, rfl⟩
  intro n h
  exact Option.noConfusion h

/-- C5 (amended): deleteStream clears is_publishing and resets the bound
stream id to 0 exactly when the stream id read from the command's first
trailing value — a number truncated by the saturating u32 cast, a missing
or non-number value read as 0 — equals the currently bound stream id and
the session is publishing; in every case (match or not) it replies with an
onStatus message of level status and code NetStream.DeleteStream.Suceess
with an empty description. -/
theorem delete_stream_clear_iff (st : SessionState) (transaction_id : ℚ)
    (stream_id : Nat) (command_obj : List (String × Amf0Value)) (others : List Amf0Value) :
    ∃ st', onCommandDeleteStream st transaction_id stream_id command_obj others = .ok st'
      ∧ st'.write_buf = st.write_buf ++
          [OutMsg.onStatus transaction_id "status" "NetStream.DeleteStream.Suceess" ""]
      ∧ (st.stream_id = deleteStreamIdOf others ∧ st.is_publishing = true →
          st'.is_publishing = false ∧ st'.stream_id = 0)
      ∧ (¬(st.stream_id = deleteStreamIdOf others ∧ st.is_publishing = true) →
          st'.is_publishing = st.is_publishing ∧ st'.stream_id = st.stream_id) := by
  unfold onCommandDeleteStream
  dsimp only
  by_cases hc : st.stream_id = deleteStreamIdOf others ∧ st.is_publishing = true
  · rw [if_pos hc]
    exact ⟨_, rfl, rfl, fun _ => ⟨rfl, rfl⟩, fun hn => absurd hc hn⟩
  · rw [if_neg hc]
    exact ⟨_, rfl, rfl, fun h => absurd h hc, fun _ => ⟨rfl, rfl⟩⟩

/-- C5 witness: a deleteStream with first trailing value 1.0 on a session
publishing on stream id 1 clears the publishing state and always writes the
success reply. -/
theorem delete_stream_clear_iff_witness :
    (stPublishing.stream_id = deleteStreamIdOf [Amf0Value.number 1]
      ∧ stPublishing.is_publishing = true)
    ∧ ∃ st', onCommandDeleteStream stPublishing 2 0 [] [Amf0Value.number 1] = .ok st'
      ∧ st'.write_buf = stPublishing.write_buf ++
          [OutMsg.onStatus 2 "status" "NetStream.DeleteStream.Suceess" ""]
      ∧ st'.is_publishing = false ∧ st'.stream_id = 0 := by
  have hc : stPublishing.stream_id = deleteStreamIdOf [Amf0Value.number 1]
      ∧ stPublishing.is_publishing = true := by
    constructor
    · decide
    · rfl
  obtain ⟨st', h1, h2, h3, _⟩ :=
    delete_stream_clear_iff stPublishing 2 0 [] [Amf0Value.number 1]
  obtain ⟨hp, hs⟩ := h3 hc
  exact ⟨hc, st', h1, h2, hp, hs⟩
